import Mathlib

/-!
Shallow embedding of the course-discovery signal side effects, URL routing
and migration 0196, for checking the specification's claims.

The repository excerpt contains the root API urlconf, migration 0196, and
the signal-handler test suite.  The signal handlers themselves
(course_metadata/signals.py) are not part of the excerpt, so they are
modelled from the specification's description of their behavior; the
urlconf and the migration are embedded directly from the source.
-/

/-- Modelled from the spec: the Partner record, of which only the
partner-configured commerce API endpoint `lms_commerce_api_url` is relevant
to the signal side effects. -/
structure Partner where
  lms_commerce_api_url : String
deriving DecidableEq, Repr

/-- Modelled from the spec: a program type, identified by its slug
(the side effects test it against "masters"). -/
structure ProgramType where
  slug : String
deriving DecidableEq, Repr

/-- Modelled from the spec: a program (degree) with its type and partner. -/
structure Program where
  type : ProgramType
  partner : Partner
deriving DecidableEq, Repr

/-- Modelled from the spec: a curriculum owned by a program. -/
structure Curriculum where
  program : Program
deriving DecidableEq, Repr

/-- Modelled from the spec: a seat (course-run pricing mode); only its mode
type and currency matter to the side effects. -/
structure Seat where
  type : String
  currency : String
deriving DecidableEq, Repr

/-- The Seat.MASTERS mode constant. -/
def Seat.MASTERS : String := "masters"

/-- Modelled from the spec: a course run, with its key and its seats. -/
structure CourseRun where
  key : String
  seats : List Seat
deriving DecidableEq, Repr

/-- Modelled from the spec: a course, holding its course runs. -/
structure Course where
  key : String
  course_runs : List CourseRun
deriving DecidableEq, Repr

/-- Modelled from the spec: the ambient state the signal handlers read: the
waffle feature switch `masters_course_mode_enabled` and whether the external
commerce API answers a PUT with an OK response. -/
structure Env where
  masters_course_mode_enabled : Bool
  put_response_ok : Bool
deriving DecidableEq, Repr

/-- The JSON body of the commerce-API PUT: `{id: course_run_key, modes: ...}`. -/
structure PutBody where
  id : String
  modes : List String
deriving DecidableEq, Repr

/-- Observable side effects emitted by an operation, in order: outbound
HTTP PUTs to the commerce API, ERROR log records, and bumps of the API
cache-invalidation timestamp (`set_api_timestamp`). -/
inductive Effect where
  | put (url : String) (body : PutBody)
  | logError (msg : String)
  | setApiTimestamp
deriving DecidableEq, Repr

/-- Whether an effect is an outbound commerce-API PUT. -/
def Effect.isPut : Effect → Bool
  | .put _ _ => true
  | _ => false

/-- Whether an effect is an ERROR log record. -/
def Effect.isLogError : Effect → Bool
  | .logError _ => true
  | _ => false

/-- Modelled from the spec: `_seats_for_course_run`, the seat-mode data of a
course run sent to the commerce API (the modes of its seats). -/
def seats_for_course_run (run : CourseRun) : List String :=
  run.seats.map (fun s => s.type)

/-- The commerce-API endpoint for a course run:
`lms_commerce_api_url + 'courses/{course_run_key}/'`. -/
def commerce_url (partner : Partner) (run : CourseRun) : String :=
  partner.lms_commerce_api_url ++ "courses/" ++ run.key ++ "/"

/-- The ERROR message logged on a non-OK commerce-API response. -/
def masters_error_msg (key : String) : String :=
  "Failed to add masters course_mode to course_run [" ++ key ++ "] in commerce api to LMS."

/-- Modelled from the spec: the Seat post_save handler.  When the feature
switch is active, the saved seat is a masters seat, the owning program's
type is "masters" and the partner has a commerce API URL configured, it
synchronously PUTs the seat-mode data of the seat's course run to the
commerce API, logging an error on a non-OK response; otherwise it does
nothing.  `program` is the program owning the seat's course. -/
def seat_post_save (env : Env) (program : Program) (run : CourseRun) (seat : Seat) :
    List Effect :=
  if env.masters_course_mode_enabled
      && (seat.type == Seat.MASTERS)
      && (program.type.slug == "masters")
      && (program.partner.lms_commerce_api_url != "") then
    let url := commerce_url program.partner run
    let body : PutBody := { id := run.key, modes := seats_for_course_run run }
    if env.put_response_ok then
      [Effect.put url body]
    else
      [Effect.put url body, Effect.logError (masters_error_msg run.key)]
  else
    []

/-- Modelled from the spec: creating a Seat row saves it (appending it to
its course run's seats), which fires the Seat post_save handler and then
bumps the API cache-invalidation timestamp. -/
def create_seat (env : Env) (program : Program) (run : CourseRun) (seat : Seat) :
    CourseRun × List Effect :=
  let run' : CourseRun := { run with seats := run.seats ++ [seat] }
  (run', seat_post_save env program run' seat ++ [Effect.setApiTimestamp])

/-- Modelled from the spec: `Seat.objects.update_or_create` of the masters
seat for one course run, as done by the membership handler: the masters
seat is created if missing, and the save fires the Seat post_save handler
and the cache-invalidation bump. -/
def update_or_create_masters_seat (env : Env) (program : Program) (run : CourseRun) :
    CourseRun × List Effect :=
  let mseat : Seat := { type := Seat.MASTERS, currency := "USD" }
  let run' : CourseRun :=
    if run.seats.any (fun s => s.type == Seat.MASTERS) then run
    else { run with seats := run.seats ++ [mseat] }
  (run', seat_post_save env program run' mseat ++ [Effect.setApiTimestamp])

/-- Modelled from the spec: creating a CurriculumCourseMembership.  When the
feature switch is active and the owning program's type is "masters", the
handler creates (update_or_create) a masters seat on every course run of the
member course, each save firing the Seat post_save handler; the membership
save itself bumps the API cache-invalidation timestamp. -/
def create_curriculum_course_membership (env : Env) (cur : Curriculum) (course : Course) :
    Course × List Effect :=
  if env.masters_course_mode_enabled && (cur.program.type.slug == "masters") then
    let pairs := course.course_runs.map (update_or_create_masters_seat env cur.program)
    ({ course with course_runs := pairs.map Prod.fst },
      List.flatten (pairs.map Prod.snd) ++ [Effect.setApiTimestamp])
  else
    (course, [Effect.setApiTimestamp])

/-- Modelled from the spec: the catalog-model mutations the excerpt's
handlers react to.  `genericSave`/`genericDelete` stand for a save or delete
of any other catalog model, whose only side effect is the cache bump. -/
inductive CatalogOp where
  | createSeat (program : Program) (run : CourseRun) (seat : Seat)
  | createMembership (cur : Curriculum) (course : Course)
  | genericSave
  | genericDelete

/-- Modelled from the spec: the effects emitted by one catalog mutation. -/
def runOp (env : Env) : CatalogOp → List Effect
  | .createSeat program run seat => (create_seat env program run seat).2
  | .createMembership cur course => (create_curriculum_course_membership env cur course).2
  | .genericSave => [Effect.setApiTimestamp]
  | .genericDelete => [Effect.setApiTimestamp]

/-- An entry of the root API urlconf (`apps/api/urls.py`): a regex routed
via `include` to a module under a namespace. -/
structure UrlInclude where
  regex : String
  module_name : String
  ns : String
deriving DecidableEq, Repr

/-- The root API urlconf from `apps/api/urls.py`:
`urlpatterns = [url(r'^v1/', include('course_discovery.apps.api.v1.urls', namespace='v1'))]`. -/
def urlpatterns : List UrlInclude :=
  [{ regex := "^v1/", module_name := "course_discovery.apps.api.v1.urls", ns := "v1" }]

/-- Matching of a caret-anchored literal regex (the only kind appearing in
this urlconf) against a request path: `^lit` matches the paths having `lit`
as a literal prefix. -/
def matches_pattern (regex path : String) : Bool :=
  match regex.data with
  | '^' :: rest => rest.isPrefixOf path.data
  | _ => false

/-- Django URL dispatch over the root urlconf: the namespace of the first
entry whose regex matches the path. -/
def resolve_ns (path : String) : Option String :=
  (urlpatterns.find? (fun u => matches_pattern u.regex path)).map (fun u => u.ns)

/-- An `AlterUniqueTogether` migration operation: the model name and its new
set of unique-together column tuples. -/
structure AlterUniqueTogetherOp where
  model_name : String
  unique_together : List (List String)
deriving DecidableEq, Repr

/-- The operations of migration `0196_auto_20190910_1714`:
`AlterUniqueTogether(name='course', unique_together={('partner', 'key', 'draft'), ('partner', 'url_slug', 'draft'), ('partner', 'uuid', 'draft')})`. -/
def migration_0196_operations : List AlterUniqueTogetherOp :=
  [{ model_name := "course",
     unique_together :=
       [["partner", "key", "draft"],
        ["partner", "url_slug", "draft"],
        ["partner", "uuid", "draft"]] }]

/-- A row of the `course` table, restricted to the columns named by the
unique-together constraints of migration 0196. -/
structure CourseRow where
  partner : String
  key : String
  url_slug : String
  uuid : String
  draft : Bool
deriving DecidableEq, Repr

/-- The value of a named column of a course row (as text). -/
def col_value (r : CourseRow) : String → Option String
  | "partner" => some r.partner
  | "key" => some r.key
  | "url_slug" => some r.url_slug
  | "uuid" => some r.uuid
  | "draft" => some (toString r.draft)
  | _ => none

/-- The projection of a course row onto a tuple of columns. -/
def row_proj (r : CourseRow) (cols : List String) : List (Option String) :=
  cols.map (col_value r)

/-- Two course rows differ on every unique-together column tuple of the
`course` model (as set by migration 0196). -/
def distinct_on_unique (op : AlterUniqueTogetherOp) (a b : CourseRow) : Bool :=
  op.unique_together.all (fun cols => row_proj a cols != row_proj b cols)

/-- A course table satisfies the unique-together constraints: every pair of
distinct rows differs on each constraint tuple. -/
def rows_unique (op : AlterUniqueTogetherOp) : List CourseRow → Bool
  | [] => true
  | r :: rest => rest.all (fun s => distinct_on_unique op r s) && rows_unique op rest

/-- A constrained insert into the course table: succeeds only if the new row
differs from every existing row on each unique-together tuple. -/
def insert_course (op : AlterUniqueTogetherOp) (rows : List CourseRow) (r : CourseRow) :
    Option (List CourseRow) :=
  if rows.all (fun s => distinct_on_unique op s r) then some (rows ++ [r]) else none

/-! ### Helper lemmas about the seat post_save handler -/

lemma seat_post_save_put_mem (env : Env) (program : Program) (run : CourseRun) (seat : Seat)
    (hf : env.masters_course_mode_enabled = true)
    (ht : seat.type = Seat.MASTERS)
    (hs : program.type.slug = "masters")
    (hu : program.partner.lms_commerce_api_url ≠ "") :
    Effect.put (commerce_url program.partner run)
      { id := run.key, modes := seats_for_course_run run } ∈
      seat_post_save env program run seat := by
  have hbne : (program.partner.lms_commerce_api_url != "") = true := by
    simpa using hu
  cases hok : env.put_response_ok <;>
    simp [seat_post_save, hf, ht, hs, hbne, hok]

lemma seat_post_save_flag_off (env : Env) (program : Program) (run : CourseRun) (seat : Seat)
    (hf : env.masters_course_mode_enabled = false) :
    seat_post_save env program run seat = [] := by
  simp [seat_post_save, hf]

lemma seat_post_save_not_masters (env : Env) (program : Program) (run : CourseRun) (seat : Seat)
    (hs : program.type.slug ≠ "masters") :
    seat_post_save env program run seat = [] := by
  have h : (program.type.slug == "masters") = false := by simpa using hs
  simp [seat_post_save, h]

lemma seat_post_save_empty_url (env : Env) (program : Program) (run : CourseRun) (seat : Seat)
    (hu : program.partner.lms_commerce_api_url = "") :
    seat_post_save env program run seat = [] := by
  simp [seat_post_save, hu]

/-- Claim C2: every save and every delete of a catalog model bumps the API
cache-invalidation timestamp (emits a `set_api_timestamp` effect). -/
theorem catalog_mutation_bumps_api_timestamp (env : Env) (op : CatalogOp) :
    Effect.setApiTimestamp ∈ runOp env op := by
  cases op with
  | createSeat program run seat => simp [runOp, create_seat]
  | createMembership cur course =>
      by_cases h : (env.masters_course_mode_enabled
          && (cur.program.type.slug == "masters")) = true
      · simp [runOp, create_curriculum_course_membership, h]
      · rw [Bool.not_eq_true] at h
        simp [runOp, create_curriculum_course_membership, h]
  | genericSave => simp [runOp]
  | genericDelete => simp [runOp]

/-- Claim C9: with an empty partner commerce API URL, creating a Seat issues
no PUT to the external commerce API, whatever the flag and program type. -/
theorem empty_commerce_url_no_put_on_seat_creation
    (env : Env) (program : Program) (run : CourseRun) (seat : Seat)
    (hu : program.partner.lms_commerce_api_url = "") :
    (create_seat env program run seat).2.countP Effect.isPut = 0 := by
  have h := seat_post_save_empty_url env program
    { run with seats := run.seats ++ [seat] } seat hu
  simp [create_seat, h, Effect.isPut]

theorem empty_commerce_url_no_put_on_seat_creation_witness :
    (create_seat { masters_course_mode_enabled := true, put_response_ok := true }
      { type := { slug := "masters" }, partner := { lms_commerce_api_url := "" } }
      { key := "r1", seats := [] }
      { type := "masters", currency := "USD" }).2.countP Effect.isPut = 0 :=
  empty_commerce_url_no_put_on_seat_creation
    { masters_course_mode_enabled := true, put_response_ok := true }
    { type := { slug := "masters" }, partner := { lms_commerce_api_url := "" } }
    { key := "r1", seats := [] } { type := "masters", currency := "USD" } rfl

/-! ### Concrete fixtures used by the witnesses -/

def envActiveOk : Env := { masters_course_mode_enabled := true, put_response_ok := true }

def envActiveBad : Env := { masters_course_mode_enabled := true, put_response_ok := false }

def envInactive : Env := { masters_course_mode_enabled := false, put_response_ok := true }

def partnerW : Partner := { lms_commerce_api_url := "http://commerce/" }

def programMasters : Program := { type := { slug := "masters" }, partner := partnerW }

def programOther : Program := { type := { slug := "not_masters" }, partner := partnerW }

def runW : CourseRun := { key := "run1", seats := [] }

def seatMasters : Seat := { type := "masters", currency := "USD" }

def courseW : Course := { key := "course1", course_runs := [runW] }

def curMasters : Curriculum := { program := programMasters }

def curOther : Curriculum := { program := programOther }

/-- Claim C5: with the feature flag inactive, neither Seat creation nor
CurriculumCourseMembership creation issues a PUT to the commerce API, and
the side effects add no masters seats: the membership creation leaves the
course (hence every course run's seats) unchanged, and the seat creation
stores exactly the requested seat. -/
theorem flag_inactive_no_put_no_masters_side_effect
    (env : Env) (program : Program) (run : CourseRun) (seat : Seat)
    (cur : Curriculum) (course : Course)
    (hf : env.masters_course_mode_enabled = false) :
    (create_seat env program run seat).2.countP Effect.isPut = 0 ∧
    (create_seat env program run seat).1.seats = run.seats ++ [seat] ∧
    (create_curriculum_course_membership env cur course).2.countP Effect.isPut = 0 ∧
    (create_curriculum_course_membership env cur course).1 = course := by
  have h := seat_post_save_flag_off env program { run with seats := run.seats ++ [seat] } seat hf
  refine ⟨?_, rfl, ?_, ?_⟩
  · simp [create_seat, h, Effect.isPut]
  · simp [create_curriculum_course_membership, hf, Effect.isPut]
  · simp [create_curriculum_course_membership, hf]

theorem flag_inactive_no_put_no_masters_side_effect_witness :
    (create_seat envInactive programMasters runW seatMasters).2.countP Effect.isPut = 0 ∧
    (create_seat envInactive programMasters runW seatMasters).1.seats
      = runW.seats ++ [seatMasters] ∧
    (create_curriculum_course_membership envInactive curMasters courseW).2.countP
      Effect.isPut = 0 ∧
    (create_curriculum_course_membership envInactive curMasters courseW).1 = courseW :=
  flag_inactive_no_put_no_masters_side_effect envInactive programMasters runW seatMasters
    curMasters courseW rfl

/-- Claim C6: with a program whose type slug is not "masters", neither Seat
creation nor CurriculumCourseMembership creation issues a PUT to the
commerce API even when the flag is active, and the side effects add no
masters seats: the membership creation leaves the course unchanged, and the
seat creation stores exactly the requested seat. -/
theorem non_masters_program_no_put_no_masters_side_effect
    (env : Env) (program : Program) (run : CourseRun) (seat : Seat)
    (cur : Curriculum) (course : Course)
    (hs : program.type.slug ≠ "masters")
    (hs' : cur.program.type.slug ≠ "masters") :
    (create_seat env program run seat).2.countP Effect.isPut = 0 ∧
    (create_seat env program run seat).1.seats = run.seats ++ [seat] ∧
    (create_curriculum_course_membership env cur course).2.countP Effect.isPut = 0 ∧
    (create_curriculum_course_membership env cur course).1 = course := by
  have h := seat_post_save_not_masters env program
    { run with seats := run.seats ++ [seat] } seat hs
  have h2 : (cur.program.type.slug == "masters") = false := by simpa using hs'
  refine ⟨?_, rfl, ?_, ?_⟩
  · simp [create_seat, h, Effect.isPut]
  · simp [create_curriculum_course_membership, h2, Effect.isPut]
  · simp [create_curriculum_course_membership, h2]

theorem non_masters_program_no_put_no_masters_side_effect_witness :
    (create_seat envActiveOk programOther runW seatMasters).2.countP Effect.isPut = 0 ∧
    (create_seat envActiveOk programOther runW seatMasters).1.seats
      = runW.seats ++ [seatMasters] ∧
    (create_curriculum_course_membership envActiveOk curOther courseW).2.countP
      Effect.isPut = 0 ∧
    (create_curriculum_course_membership envActiveOk curOther courseW).1 = courseW :=
  non_masters_program_no_put_no_masters_side_effect envActiveOk programOther runW seatMasters
    curOther courseW (by decide) (by decide)

/-- Claim C8: saving a masters Seat (flag active, masters program, commerce
URL configured) fires the PUT from the Seat post_save handler itself, with
target URL `lms_commerce_api_url ++ 'courses/' ++ course_run_key ++ '/'` and
JSON body `{id := course_run_key, modes := seats_for_course_run run}` (the
run as saved, seat included). -/
theorem seat_post_save_put_url_and_body
    (env : Env) (program : Program) (run : CourseRun) (seat : Seat)
    (hf : env.masters_course_mode_enabled = true)
    (ht : seat.type = Seat.MASTERS)
    (hs : program.type.slug = "masters")
    (hu : program.partner.lms_commerce_api_url ≠ "") :
    Effect.put
      (program.partner.lms_commerce_api_url ++ "courses/" ++ run.key ++ "/")
      { id := run.key,
        modes := seats_for_course_run { run with seats := run.seats ++ [seat] } } ∈
      (create_seat env program run seat).2 := by
  have h := seat_post_save_put_mem env program
    { run with seats := run.seats ++ [seat] } seat hf ht hs hu
  simpa [create_seat, commerce_url] using List.mem_append_left [Effect.setApiTimestamp] h

theorem seat_post_save_put_url_and_body_witness :
    Effect.put "http://commerce/courses/run1/"
      { id := "run1", modes := ["masters"] } ∈
      (create_seat envActiveOk programMasters runW seatMasters).2 :=
  seat_post_save_put_url_and_body envActiveOk programMasters runW seatMasters
    rfl rfl rfl (by decide)

/-- Claim C4: when the commerce API answers the PUT with a non-OK response,
the seat creation logs exactly one ERROR record, with the message
`Failed to add masters course_mode to course_run [key] in commerce api to LMS.`,
issues exactly one PUT (no retry), and still completes the model creation
(no exception: the seat is stored). -/
theorem seat_creation_bad_response_logs_single_error
    (env : Env) (program : Program) (run : CourseRun) (seat : Seat)
    (hf : env.masters_course_mode_enabled = true)
    (ht : seat.type = Seat.MASTERS)
    (hs : program.type.slug = "masters")
    (hu : program.partner.lms_commerce_api_url ≠ "")
    (hbad : env.put_response_ok = false) :
    (create_seat env program run seat).2.countP Effect.isLogError = 1 ∧
    (create_seat env program run seat).2.countP Effect.isPut = 1 ∧
    Effect.logError (masters_error_msg run.key) ∈ (create_seat env program run seat).2 ∧
    (create_seat env program run seat).1.seats = run.seats ++ [seat] := by
  have hbne : (program.partner.lms_commerce_api_url != "") = true := by simpa using hu
  have heq : seat_post_save env program { run with seats := run.seats ++ [seat] } seat
      = [Effect.put (commerce_url program.partner { run with seats := run.seats ++ [seat] })
           { id := run.key,
             modes := seats_for_course_run { run with seats := run.seats ++ [seat] } },
         Effect.logError (masters_error_msg run.key)] := by
    simp [seat_post_save, hf, ht, hs, hbne, hbad]
  refine ⟨?_, ?_, ?_, rfl⟩ <;>
    simp [create_seat, heq, Effect.isPut, Effect.isLogError]

theorem seat_creation_bad_response_logs_single_error_witness :
    (create_seat envActiveBad programMasters runW seatMasters).2.countP
      Effect.isLogError = 1 ∧
    (create_seat envActiveBad programMasters runW seatMasters).2.countP Effect.isPut = 1 ∧
    Effect.logError (masters_error_msg runW.key) ∈
      (create_seat envActiveBad programMasters runW seatMasters).2 ∧
    (create_seat envActiveBad programMasters runW seatMasters).1.seats
      = runW.seats ++ [seatMasters] :=
  seat_creation_bad_response_logs_single_error envActiveBad programMasters runW seatMasters
    rfl rfl rfl (by decide) rfl

/-- Claim C3: creating a CurriculumCourseMembership with the flag active and
the owning program's type slug "masters" leaves every course run of the
member course with a seat of type Seat.MASTERS: the side effect itself
creates the seats, independently of the external call. -/
theorem membership_creation_adds_masters_seat_to_every_run
    (env : Env) (cur : Curriculum) (course : Course)
    (hf : env.masters_course_mode_enabled = true)
    (hs : cur.program.type.slug = "masters") :
    ∀ run ∈ (create_curriculum_course_membership env cur course).1.course_runs,
      ∃ s ∈ run.seats, s.type = Seat.MASTERS := by
  intro run hrun
  simp [create_curriculum_course_membership, hf, hs] at hrun
  obtain ⟨a, -, heq⟩ := hrun
  subst heq
  by_cases hany : a.seats.any (fun s => s.type == Seat.MASTERS) = true
  · obtain ⟨s, hs1, hs2⟩ := List.any_eq_true.mp hany
    exact ⟨s, by simp [update_or_create_masters_seat, hany, hs1], by simpa using hs2⟩
  · rw [Bool.not_eq_true] at hany
    exact ⟨{ type := Seat.MASTERS, currency := "USD" },
      by simp [update_or_create_masters_seat, hany], rfl⟩

theorem membership_creation_adds_masters_seat_to_every_run_witness :
    ∃ s ∈ ({ key := "run1",
             seats := [{ type := "masters", currency := "USD" }] } : CourseRun).seats,
      s.type = Seat.MASTERS :=
  membership_creation_adds_masters_seat_to_every_run envActiveOk curMasters courseW rfl rfl
    { key := "run1", seats := [{ type := "masters", currency := "USD" }] } (by decide)

/-- Claim C1 is false as stated: with the flag active and a "masters"
program, a CurriculumCourseMembership creation issues no commerce-API PUT
when the partner's commerce API URL is empty (here: a course with one run,
program type "masters", flag active, `lms_commerce_api_url = ""`). -/
theorem membership_creation_no_put_with_empty_commerce_url :
    (create_curriculum_course_membership
      { masters_course_mode_enabled := true, put_response_ok := true }
      { program := { type := { slug := "masters" },
                     partner := { lms_commerce_api_url := "" } } }
      { key := "course1", course_runs := [{ key := "run1", seats := [] }] }).2.countP
      Effect.isPut = 0 := by
  decide

lemma update_or_create_put_mem (env : Env) (program : Program) (run : CourseRun)
    (hf : env.masters_course_mode_enabled = true)
    (hs : program.type.slug = "masters")
    (hu : program.partner.lms_commerce_api_url ≠ "") :
    ∃ body,
      Effect.put (program.partner.lms_commerce_api_url ++ "courses/" ++ run.key ++ "/") body
        ∈ (update_or_create_masters_seat env program run).2 := by
  by_cases hany : run.seats.any (fun s => s.type == Seat.MASTERS) = true
  · have h := seat_post_save_put_mem env program run
      { type := Seat.MASTERS, currency := "USD" } hf rfl hs hu
    exact ⟨_, by
      simpa [update_or_create_masters_seat, hany, commerce_url] using
        List.mem_append_left [Effect.setApiTimestamp] h⟩
  · rw [Bool.not_eq_true] at hany
    have h := seat_post_save_put_mem env program
      { run with seats := run.seats ++ [{ type := Seat.MASTERS, currency := "USD" }] }
      { type := Seat.MASTERS, currency := "USD" } hf rfl hs hu
    exact ⟨_, by
      simpa [update_or_create_masters_seat, hany, commerce_url] using
        List.mem_append_left [Effect.setApiTimestamp] h⟩

/-- Claim C1 (amended): for every creation of a CurriculumCourseMembership,
if the flag 'masters_course_mode_enabled' is active, the owning program's
type has slug "masters" and the program partner's commerce API URL is
nonempty, the operation synchronously issues an HTTP PUT of seat-mode data
to the partner-configured commerce endpoint for each course run of the
member course. -/
theorem membership_creation_puts_for_each_run
    (env : Env) (cur : Curriculum) (course : Course)
    (hf : env.masters_course_mode_enabled = true)
    (hs : cur.program.type.slug = "masters")
    (hu : cur.program.partner.lms_commerce_api_url ≠ "") :
    ∀ run ∈ course.course_runs, ∃ body,
      Effect.put
        (cur.program.partner.lms_commerce_api_url ++ "courses/" ++ run.key ++ "/") body
        ∈ (create_curriculum_course_membership env cur course).2 := by
  intro run hrun
  obtain ⟨body, hb⟩ := update_or_create_put_mem env cur.program run hf hs hu
  refine ⟨body, ?_⟩
  simp only [create_curriculum_course_membership, hf, hs, beq_self_eq_true,
    Bool.true_and, if_true]
  refine List.mem_append_left _ (List.mem_flatten.mpr ⟨_, ?_, hb⟩)
  exact List.mem_map_of_mem _ (List.mem_map_of_mem _ hrun)

theorem membership_creation_puts_for_each_run_witness :
    ∃ body,
      Effect.put
        (curMasters.program.partner.lms_commerce_api_url ++ "courses/" ++ runW.key ++ "/")
        body
        ∈ (create_curriculum_course_membership envActiveOk curMasters courseW).2 :=
  membership_creation_puts_for_each_run envActiveOk curMasters courseW rfl rfl (by decide)
    runW (by decide)

/-- Claim C7: the root API dispatch table has exactly one entry, it routes
the regex `^v1/` to the `v1` namespace, and every path with literal prefix
`v1/` resolves to the `v1` namespace — all exposed API routes are
versioned. -/
theorem root_urlconf_single_versioned_entry :
    urlpatterns.length = 1 ∧
    (∀ u ∈ urlpatterns, u.regex = "^v1/" ∧ u.ns = "v1") ∧
    (∀ path : String, List.isPrefixOf "v1/".data path.data = true →
      resolve_ns path = some "v1") := by
  refine ⟨rfl, ?_, ?_⟩
  · intro u hu
    simp only [urlpatterns, List.mem_singleton] at hu
    subst hu
    exact ⟨rfl, rfl⟩
  · intro path h
    have hm : matches_pattern "^v1/" path = true := by
      rw [show matches_pattern "^v1/" path
            = List.isPrefixOf "v1/".data path.data from rfl]
      exact h
    simp [resolve_ns, urlpatterns, List.find?, hm]

theorem root_urlconf_single_versioned_entry_witness :
    List.isPrefixOf "v1/".data "v1/courses/".data = true ∧
    resolve_ns "v1/courses/" = some "v1" :=
  ⟨by decide, root_urlconf_single_versioned_entry.2.2 "v1/courses/" (by decide)⟩

lemma rows_unique_append (op : AlterUniqueTogetherOp) (rows : List CourseRow) (r : CourseRow)
    (hrows : rows_unique op rows = true)
    (hall : rows.all (fun s => distinct_on_unique op s r) = true) :
    rows_unique op (rows ++ [r]) = true := by
  induction rows with
  | nil => simp [rows_unique]
  | cons a rest ih =>
      rw [List.all_cons, Bool.and_eq_true] at hall
      rw [show rows_unique op (a :: rest)
            = (rest.all (fun s => distinct_on_unique op a s) && rows_unique op rest)
          from rfl, Bool.and_eq_true] at hrows
      rw [List.cons_append,
        show rows_unique op (a :: (rest ++ [r]))
          = ((rest ++ [r]).all (fun s => distinct_on_unique op a s)
              && rows_unique op (rest ++ [r])) from rfl,
        Bool.and_eq_true]
      refine ⟨?_, ih hrows.2 hall.2⟩
      rw [List.all_append, Bool.and_eq_true]
      exact ⟨hrows.1, by simpa using hall.1⟩

/-- Claim C10: migration 0196 consists of a single operation setting the
`course` model's unique-together constraint set to exactly
(partner, key, draft), (partner, url_slug, draft), (partner, uuid, draft);
under these constraints, a constrained insert into a table in which all
distinct rows differ on each tuple preserves that invariant. -/
theorem migration_0196_unique_together_exact_and_preserved :
    migration_0196_operations.length = 1 ∧
    (∀ op ∈ migration_0196_operations,
      op.model_name = "course" ∧
      (∀ cols, cols ∈ op.unique_together ↔
        (cols = ["partner", "key", "draft"] ∨
         cols = ["partner", "url_slug", "draft"] ∨
         cols = ["partner", "uuid", "draft"])) ∧
      ∀ rows r rows', rows_unique op rows = true →
        insert_course op rows r = some rows' → rows_unique op rows' = true) := by
  refine ⟨rfl, ?_⟩
  intro op hop
  simp only [migration_0196_operations, List.mem_singleton] at hop
  subst hop
  refine ⟨rfl, fun cols => by simp, ?_⟩
  intro rows r rows' hrows hins
  rw [insert_course] at hins
  split at hins
  next hall =>
    obtain rfl := Option.some.inj hins
    exact rows_unique_append _ rows r hrows hall
  next =>
    exact absurd hins (by simp)

theorem migration_0196_unique_together_exact_and_preserved_witness :
    rows_unique
      { model_name := "course",
        unique_together :=
          [["partner", "key", "draft"],
           ["partner", "url_slug", "draft"],
           ["partner", "uuid", "draft"]] }
      ([] ++ [{ partner := "p", key := "k", url_slug := "s", uuid := "u", draft := false }])
      = true :=
  (migration_0196_unique_together_exact_and_preserved.2
      { model_name := "course",
        unique_together :=
          [["partner", "key", "draft"],
           ["partner", "url_slug", "draft"],
           ["partner", "uuid", "draft"]] }
      (by decide)).2.2
    [] { partner := "p", key := "k", url_slug := "s", uuid := "u", draft := false }
    ([] ++ [{ partner := "p", key := "k", url_slug := "s", uuid := "u", draft := false }])
    (by decide) (by decide)
